import Mathlib

/-!
Shallow embedding of the "nave" control plane
(`backend/app/snippets/nave/{infra,gcp_client,gcp_admin,agent_template}.py`).

HTTP exceptions are modelled as `HTTPError` values returned through `Except`;
databases are explicit lists threaded through the operations; provider calls
are driven by explicit oracles (quota tables, fault injectors, response
traces) so that every run of the Python code corresponds to a choice of
oracle.  Quota usage/limit numbers (non-negative counts in the provider's
JSON) are modelled as `Nat`.
-/

namespace Nave

/-- `fastapi.HTTPException(status_code, detail)`. -/
structure HTTPError where
  status : Nat
  detail : String
deriving DecidableEq, Repr

/-- One entry of the dict built by `get_region_quotas`: the
`{"limit": ..., "usage": ...}` pair for a metric; `none` in a field models a
missing/null JSON value. -/
structure QuotaInfo where
  usage : Option Nat
  limit : Option Nat
deriving DecidableEq, Repr

/-- Python `x or 0` on an optional number (`None` and `0` are both falsy and
map to `0`). -/
def orZero : Option Nat → Nat
  | none => 0
  | some n => n

/-- Row of `app_nave_project` (the fields `_pick_project` and
`register_projects` read or write). -/
structure NaveProject where
  id : Nat
  project_id : String
  is_active : Bool
deriving DecidableEq, Repr

/-- `infra._project_has_quota`, with the provider's quota table for the
project given as `q = quotas.get("IN_USE_ADDRESSES")`: absent/falsy info is
treated as unlimited, else `(usage or 0) < (limit or 0)`. -/
def _project_has_quota (q : Option QuotaInfo) : Bool :=
  match q with
  | none => true
  | some info => orZero info.usage < orZero info.limit

/-- The `for proj in projects` loop of `infra._pick_project`: sets each
project's `is_active` from its live quota check and remembers the first
project that has quota (`chosen`). -/
def pickLoop (quota : String → Option QuotaInfo) :
    List NaveProject → Option NaveProject → List NaveProject × Option NaveProject
  | [], chosen => ([], chosen)
  | proj :: rest, chosen =>
    if _project_has_quota (quota proj.project_id) then
      let proj' := { proj with is_active := true }
      let r := pickLoop quota rest (match chosen with | none => some proj' | some c => some c)
      (proj' :: r.1, r.2)
    else
      let proj' := { proj with is_active := false }
      let r := pickLoop quota rest chosen
      (proj' :: r.1, r.2)

def errNoProjects : HTTPError := ⟨503, "No hay proyectos registrados"⟩

def errNoQuota : HTTPError := ⟨503, "No hay proyectos con cuota de IP"⟩

/-- `infra._pick_project`.  `projects` is the store's project list in
registration order (`order_by id asc`); `quota` is the provider's quota
oracle (`get_region_quotas(...)["IN_USE_ADDRESSES"]` per project id).
Returns the updated (committed) project list together with the
chosen project or the 503 error; note the flag updates are committed even
when the scan fails with `errNoQuota` (the `db.commit()` precedes the raise). -/
def _pick_project (quota : String → Option QuotaInfo) (projects : List NaveProject) :
    List NaveProject × Except HTTPError NaveProject :=
  if projects.isEmpty then (projects, .error errNoProjects)
  else
    let r := pickLoop quota projects none
    match r.2 with
    | none => (r.1, .error errNoQuota)
    | some c => (r.1, .ok c)

/-- Python `pat in s` (substring containment). -/
def strContains (s pat : String) : Bool := decide (pat.data <:+: s.data)

/-- Python `s.endswith(pat)`. -/
def strEndsWith (s pat : String) : Bool := decide (pat.data <:+ s.data)

/-- The transient-error test of `gcp_admin.enable_service`:
`"SERVICE_DISABLED" in msg or "has not been used" in msg or
"PERMISSION_DENIED" in msg`. -/
def isTransient (msg : String) : Bool :=
  strContains msg "SERVICE_DISABLED" || strContains msg "has not been used" ||
    strContains msg "PERMISSION_DENIED"

/-- One provider response to one `_request` call made by `enable_service`:
either an HTTP-level failure (the call raised `HTTPException`) or a decoded
JSON body, abstracted to the two fields the loop reads (`done`, `name`). -/
inductive ProviderResp where
  | fail (e : HTTPError)
  | json (done : Bool) (name : Option String)
deriving DecidableEq, Repr

/-- The inner polling loop of `enable_service` (`while True: status = GET;
if done: return; if elapsed > budget: raise 504; sleep 2`).  `trace k` is the
provider's response to the `k`-th call of the whole enablement; `now` is the
elapsed time in seconds (advanced by the sleeps); `fuel` bounds the
iterations so the function is total.  Returns the next call index, the clock,
and either success or the exception escaping to the outer handler (a raised
`HTTPException` from `_request`, or the 504 timeout, both of which the
Python `try` block routes to the same `except`). -/
def poll_inner (trace : Nat → ProviderResp) (timeout_s : Nat) :
    Nat → Nat → Nat → Option (Nat × Nat × Except HTTPError Unit)
  | 0, _, _ => none
  | fuel + 1, k, now =>
    match trace k with
    | .fail e => some (k + 1, now, .error e)
    | .json done _ =>
      if done then some (k + 1, now, .ok ())
      else if now > timeout_s then
        some (k + 1, now, .error ⟨504, "Service enable timeout"⟩)
      else poll_inner trace timeout_s fuel (k + 1) (now + 2)

/-- The outer retry loop of `gcp_admin.enable_service`.  State: call index
`k`, elapsed clock `now` (advanced only by the sleeps), current `backoff`,
and the reversed log of backoff sleeps performed so far (the inner loop's
fixed 2-second polling sleeps are not part of the backoff sequence and are
not logged).  `none` means the fuel ran out before the run finished. -/
def enable_outer (trace : Nat → ProviderResp) (timeout_s : Nat) :
    Nat → Nat → Nat → Nat → List Nat → Option (List Nat × Except HTTPError Unit)
  | 0, _, _, _, _ => none
  | fuel + 1, k, now, backoff, log =>
    match trace k with
    | .fail e =>
      if isTransient e.detail then
        if now > timeout_s then some (log.reverse, .error e)
        else
          enable_outer trace timeout_s fuel (k + 1) (now + backoff)
            (min (backoff * 2) 20) (backoff :: log)
      else some (log.reverse, .error e)
    | .json done name =>
      if done then some (log.reverse, .ok ())
      else
        match name with
        | none => some (log.reverse, .ok ())
        | some n =>
          if strEndsWith n "DONE_OPERATION" then some (log.reverse, .ok ())
          else
            match poll_inner trace timeout_s fuel (k + 1) now with
            | none => none
            | some r =>
              match r.2.2 with
              | .ok _ => some (log.reverse, .ok ())
              | .error e =>
                if isTransient e.detail then
                  if r.2.1 > timeout_s then some (log.reverse, .error e)
                  else
                    enable_outer trace timeout_s fuel r.1 (r.2.1 + backoff)
                      (min (backoff * 2) 20) (backoff :: log)
                else some (log.reverse, .error e)

/-- `gcp_admin.enable_service(project, service, timeout_s)` against a
provider trace: `start` is call 0, the clock starts at 0 and `backoff = 2`.
Returns the chronological list of backoff sleeps and the outcome. -/
def enable_service (trace : Nat → ProviderResp) (timeout_s fuel : Nat) :
    Option (List Nat × Except HTTPError Unit) :=
  enable_outer trace timeout_s fuel 0 0 2 []

/-- The exponential-backoff schedule of `enable_service`: the `i`-th backoff
sleep is `min (2^(i+1)) 20`, i.e. 2, 4, 8, 16, 20, 20, …. -/
def backoffSeq (i : Nat) : Nat := min (2 ^ (i + 1)) 20

/-- A provider that answers every call with a transient permission error
(concrete trace used to exercise the budget-exhaustion path). -/
def tr403 : Nat → ProviderResp :=
  fun _ => .fail ⟨403, "GCP error: PERMISSION_DENIED: service not used"⟩

/-- The slice of an instance's descriptor the workflow reads back: its name
and the public address (`networkInterfaces[0].accessConfigs[0].natIP`, absent
when the provider reports none). -/
structure InstanceDesc where
  name : String
  natIP : Option String
deriving DecidableEq, Repr

/-- Row of `app_nave_exit` (the fields the control-plane endpoints read or
write).  The JSON blobs `desired_json`/`status_json` are modelled as
association lists (string keys to string values); `last_seen_at` is an
abstract timestamp. -/
structure NaveExit where
  id : Nat
  profile_id : Option Nat
  vm_name : Option String
  address_name : Option String := none
  public_ip : Option String := none
  agent_token : String
  desired_json : Option (List (String × String))
  status_json : Option (List (String × String))
  instance_json : Option InstanceDesc := none
  last_seen_at : Option Nat
deriving DecidableEq, Repr

/-- Committing a mutated ORM row: every stored row with the same primary key
takes the new value (the id is the primary key, so at most one row changes). -/
def updateAgent (agents : List NaveExit) (a : NaveExit) : List NaveExit :=
  agents.map (fun b => if b.id = a.id then a else b)

/-- `infra._agent_from_token`: a falsy header (`None` or the empty string)
is rejected outright; otherwise the store is searched for the row whose id
and stored token both match. -/
def _agent_from_token (agents : List NaveExit) (agent_id : Nat) (token : Option String) :
    Except HTTPError NaveExit :=
  match token with
  | none => .error ⟨401, "Token de agente requerido"⟩
  | some t =>
    if t = "" then .error ⟨401, "Token de agente requerido"⟩
    else
      match agents.find? (fun a => a.id == agent_id && a.agent_token == t) with
      | none => .error ⟨401, "Agente invalido"⟩
      | some a => .ok a

/-- `db.get(NaveExit, agent_id)`: point lookup by primary key. -/
def dbGet (agents : List NaveExit) (agent_id : Nat) : Option NaveExit :=
  agents.find? (fun a => a.id == agent_id)

/-- `infra.get_agent_desired` (`GET /agents/{id}/desired`): token-checked;
on success updates last-seen and returns `(agent_id, desired_json or {})`.
Returns the committed store together with the response. -/
def get_agent_desired (agents : List NaveExit) (agent_id : Nat) (token : Option String)
    (now : Nat) : List NaveExit × Except HTTPError (Nat × List (String × String)) :=
  match _agent_from_token agents agent_id token with
  | .error e => (agents, .error e)
  | .ok a =>
    let a2 := { a with last_seen_at := some now }
    (updateAgent agents a2, .ok (a2.id, a2.desired_json.getD []))

/-- `infra.set_agent_desired` (`POST /agents/{id}/desired`,
operator-authenticated): primary-key lookup, 404 when absent, then the
desired blob is overwritten wholesale with `{"wg_conf": wg_conf}`. -/
def set_agent_desired (agents : List NaveExit) (agent_id : Nat) (wg_conf : String) :
    List NaveExit × Except HTTPError (Nat × List (String × String)) :=
  match dbGet agents agent_id with
  | none => (agents, .error ⟨404, "Agente no encontrado"⟩)
  | some a =>
    let a2 := { a with desired_json := some [("wg_conf", wg_conf)] }
    (updateAgent agents a2, .ok (a2.id, [("wg_conf", wg_conf)]))

/-- `infra.set_agent_status` (`POST /agents/{id}/status`): token-checked; on
success overwrites the status blob and last-seen. -/
def set_agent_status (agents : List NaveExit) (agent_id : Nat) (token : Option String)
    (status_in : List (String × String)) (now : Nat) :
    List NaveExit × Except HTTPError Unit :=
  match _agent_from_token agents agent_id token with
  | .error e => (agents, .error e)
  | .ok a =>
    let a2 := { a with status_json := some status_in, last_seen_at := some now }
    (updateAgent agents a2, .ok ())

/-- Python's whitespace class for `str.strip()` (restricted to ASCII, the
relevant range for project identifiers). -/
def isPySpace (c : Char) : Bool :=
  c = ' ' || c = '\t' || c = '\n' || c = '\x0d' || c = '\x0b' || c = '\x0c'

/-- Python `s.strip()`: drop leading and trailing whitespace. -/
def pyStrip (s : String) : String :=
  ⟨((s.data.dropWhile isPySpace).reverse.dropWhile isPySpace).reverse⟩

/-- `infra.register_projects` (`POST /projects/register`): for each submitted
identifier, strip whitespace, skip blanks, reuse an existing row, else insert
a new row with the active flag true.  `nextId` models the autoincrement
primary key; the returned row list mirrors `rows` in the source. -/
def register_projects (projects : List NaveProject) (nextId : Nat) :
    List String → (List NaveProject × Nat) × List NaveProject
  | [] => ((projects, nextId), [])
  | pid0 :: rest =>
    let pid := pyStrip pid0
    if pid = "" then register_projects projects nextId rest
    else
      match projects.find? (fun p => p.project_id == pid) with
      | some existing =>
        let r := register_projects projects nextId rest
        (r.1, existing :: r.2)
      | none =>
        let proj : NaveProject := ⟨nextId, pid, true⟩
        let r := register_projects (projects ++ [proj]) (nextId + 1) rest
        (r.1, proj :: r.2)

/-- Outcome of `apply_wg`'s interface cycle: `wg-quick up` (run with
`check=True`) either succeeds or raises. -/
inductive ApplyOut where
  | ok
  | raise (msg : String)
deriving DecidableEq, Repr

/-- Result of one reconciliation-agent cycle body. -/
structure CycleOut where
  last_hash : String
  applied : Bool
  errored : Bool
deriving DecidableEq, Repr

/-- One iteration of `agent_template.main`'s loop after a successful fetch:
`conf` is the fetched `wg_conf` (empty string when unset), `h` the content
hash (`sha256 hexdigest`, abstract here), `ap` the outcome of the apply
step.  Mirrors: hash only non-empty configs, reapply only on hash change,
update the in-memory last-applied hash only when the apply succeeded (an
exception from `apply_wg` skips the update and is caught by the cycle's
handler). -/
def agent_cycle (h : String → String) (ap : ApplyOut) (last_hash conf : String) : CycleOut :=
  let conf_hash := if conf = "" then "" else h conf
  let changed := conf_hash != "" && conf_hash != last_hash
  if changed then
    match ap with
    | .ok => ⟨conf_hash, true, false⟩
    | .raise _ => ⟨last_hash, false, true⟩
  else ⟨last_hash, false, false⟩

def isLowerAZ (c : Char) : Bool := decide ('a' ≤ c) && decide (c ≤ 'z')

def isDigit09 (c : Char) : Bool := decide ('0' ≤ c) && decide (c ≤ '9')

def isMidChar (c : Char) : Bool := c = '-' || isLowerAZ c || isDigit09 c

/-- A string of 3–63 characters matching
`[a-z][-a-z0-9]{1,61}[a-z0-9]` exactly (one lowercase letter, 1–61 middle
characters drawn from lowercase/digit/hyphen, one trailing
lowercase-or-digit; the trailing character is itself a legal middle
character, so this is: length in `[3,63]`, lowercase head, lowercase-or-digit
last, middle characters legal). -/
def name_core_ok (cs : List Char) : Bool :=
  decide (3 ≤ cs.length) && decide (cs.length ≤ 63) &&
  (match cs.head? with | some c => isLowerAZ c | none => false) &&
  (match cs.getLast? with | some c => isLowerAZ c || isDigit09 c | none => false) &&
  (cs.drop 1).dropLast.all isMidChar

/-- `infra._NAME_RE.match(s)` as a Boolean: Python's `re.match` anchors at
the start and the pattern's `$` matches at the end of the string or just
before one final newline, so `s` matches iff `s` itself, or `s` minus one
trailing newline, is of the core shape. -/
def _NAME_RE_match (s : String) : Bool :=
  name_core_ok s.data || (s.data.getLast? == some '\n' && name_core_ok s.data.dropLast)

def errBadName : HTTPError :=
  ⟨400, "Nombre invalido (solo letras minusculas, numeros y \x27-\x27)"⟩

/-- `infra._ensure_name`. -/
def _ensure_name (s : String) : Except HTTPError Unit :=
  if _NAME_RE_match s then .ok () else .error errBadName

def GCP_PROJECT : String := "politicomap"

def GCP_REGION : String := "northamerica-south1"

def GCP_ZONE : String := "northamerica-south1-a"

/-- Provider-side resource state: the firewalls, static addresses and
instances that exist, each keyed by `(project_id, name)`. -/
structure Cloud where
  firewalls : List (String × String)
  addresses : List (String × String)
  instances : List (String × String)
deriving DecidableEq, Repr

/-- Fault injection for the provider calls the workflow makes: `some e`
makes the corresponding call raise `e` (any HTTP-level provider failure,
e.g. a quota or permission error, or — for instance creation — the 404 from
the static-address lookup inside `create_instance`). -/
structure Faults where
  fwGet : Option HTTPError
  fwCreate : Option HTTPError
  addrCreate : Option HTTPError
  instCreate : Option HTTPError
deriving DecidableEq, Repr

def noFaults : Faults := ⟨none, none, none, none⟩

/-- Provider state `c2` extends `c1` without removing anything: each
resource list of `c1` is a prefix of the corresponding list of `c2` (no
created resource is ever rolled back). -/
def CloudLe (c1 c2 : Cloud) : Prop :=
  c1.firewalls <+: c2.firewalls ∧ c1.addresses <+: c2.addresses ∧
    c1.instances <+: c2.instances

/-- Log entry for one provider call issued by the workflow. -/
inductive CloudCall where
  | quotaGet (project : String)
  | fwGet (project name : String)
  | fwCreate (project name : String)
  | addrCreate (project name : String)
  | instCreate (project name : String)
deriving DecidableEq, Repr

/-- `gcp_client.get_firewall`: 404 when the rule does not exist. -/
def get_firewall (f : Faults) (c : Cloud) (project name : String) : Except HTTPError Unit :=
  match f.fwGet with
  | some e => .error e
  | none =>
    if (project, name) ∈ c.firewalls then .ok ()
    else .error ⟨404, "GCP error: firewall not found"⟩

/-- `gcp_client.create_firewall_rule` (create, wait, read back). -/
def create_firewall_rule (f : Faults) (c : Cloud) (project name : String) :
    Cloud × Except HTTPError Unit :=
  match f.fwCreate with
  | some e => (c, .error e)
  | none => ({ c with firewalls := c.firewalls ++ [(project, name)] }, .ok ())

/-- `gcp_client.create_address` (create, wait, read back). -/
def create_address_op (f : Faults) (c : Cloud) (project name : String) :
    Cloud × Except HTTPError Unit :=
  match f.addrCreate with
  | some e => (c, .error e)
  | none => ({ c with addresses := c.addresses ++ [(project, name)] }, .ok ())

/-- `gcp_client.create_instance` (build body, create, wait, read back);
`natIP` is the public address the provider reports on the new instance's
access config. -/
def create_instance_op (f : Faults) (c : Cloud) (project name : String)
    (natIP : Option String) : Cloud × Except HTTPError InstanceDesc :=
  match f.instCreate with
  | some e => (c, .error e)
  | none => ({ c with instances := c.instances ++ [(project, name)] }, .ok ⟨name, natIP⟩)

/-- Result of the ensure-firewall-rule step. -/
structure EnsureFwOut where
  cloud : Cloud
  calls : List CloudCall
  creates : Nat
  result : Except HTTPError Unit
deriving Repr

/-- The ensure-firewall-rule step of `provision_vm` (lines 243–255):
look the shared rule up by name; on 404 create it; re-raise any other
lookup error.  `creates` counts the create calls issued. -/
def ensure_fw (f : Faults) (c : Cloud) (project : String) : EnsureFwOut :=
  match get_firewall f c project "nave-wg-udp-51820" with
  | .ok _ => ⟨c, [.fwGet project "nave-wg-udp-51820"], 0, .ok ()⟩
  | .error e =>
    if e.status ≠ 404 then ⟨c, [.fwGet project "nave-wg-udp-51820"], 0, .error e⟩
    else
      let r := create_firewall_rule f c project "nave-wg-udp-51820"
      ⟨r.1, [.fwGet project "nave-wg-udp-51820", .fwCreate project "nave-wg-udp-51820"], 1, r.2⟩

/-- Row of `app_nave_profile` (only the field `provision_vm` writes). -/
structure NaveProfileRow where
  id : Nat
  network_json : Option (List (String × String))
deriving DecidableEq, Repr

/-- The control-plane store threaded through the provisioning workflow. -/
structure DB where
  agents : List NaveExit
  projects : List NaveProject
  profiles : List NaveProfileRow
  nextAgentId : Nat
deriving DecidableEq, Repr

/-- `schemas.ProvisionIn`. -/
structure ProvisionIn where
  name : String
  profile_id : Option Nat := none
  address_name : Option String := none
  create_ip : Bool := true
  machine_type : Option String := none
  disk_size_gb : Option Nat := none
  preemptible : Bool := false
deriving DecidableEq, Repr

/-- `schemas.ProvisionOut` (the fields the workflow fills; the source's
`instance` field is named `inst` here because `instance` is a Lean
keyword). -/
structure ProvisionOut where
  agent_id : Nat
  token : String
  vm_name : String
  address_name : String
  inst : InstanceDesc
deriving DecidableEq, Repr

/-- Ambient inputs of one provisioning run: the quota oracle, the fault
injector, the freshly generated bootstrap token
(`secrets.token_urlsafe(32)`), and the public IP the provider allocates. -/
structure ProvisionEnv where
  quota : String → Option QuotaInfo
  faults : Faults
  freshToken : String
  instIP : Option String

/-- `inp.address_name or f"{inp.name}-ip"`: the default applies when the
field is absent or the empty string (both falsy). -/
def default_address_name (inp : ProvisionIn) : String :=
  match inp.address_name with
  | none => inp.name ++ "-ip"
  | some a => if a = "" then inp.name ++ "-ip" else a

/-- `infra._create_agent`: insert and commit a bare agent row carrying the
fresh token; the autoincrement key is `db.nextAgentId`. -/
def _create_agent (db : DB) (token : String) (profile_id : Option Nat)
    (name : Option String) : DB × NaveExit :=
  let agent : NaveExit :=
    { id := db.nextAgentId, profile_id := profile_id, vm_name := name,
      agent_token := token, desired_json := none, status_json := none,
      last_seen_at := none }
  ({ db with agents := db.agents ++ [agent], nextAgentId := db.nextAgentId + 1 }, agent)

/-- The network summary mirrored onto the profile in step 10, flattened to
string fields. -/
def netSummary (inp : ProvisionIn) (address_name : String) (public_ip : Option String)
    (project : String) (agent_id : Nat) : List (String × String) :=
  [("vm_name", inp.name), ("address_name", address_name),
   ("public_ip", public_ip.getD ""), ("zone", GCP_ZONE), ("region", GCP_REGION),
   ("project_id", project), ("agent_id", toString agent_id)]

/-- `infra.provision_vm` (`POST /infra/provision`).  Returns the committed
store, the provider state, the chronological list of provider calls issued,
and the response.  Mirrors the source step by step: validate both names
(before any store write or provider call), create and commit the agent row,
render the startup script (pure, no modelled effect), pick a project
(committing quota-flag updates even on failure), ensure the shared firewall
rule, optionally reserve the address, create the instance, commit the
updated agent row, and mirror the summary onto the linked profile (note
Python's `if inp.profile_id:` also skips a profile id of 0). -/
def provision_vm (env : ProvisionEnv) (db : DB) (cloud : Cloud) (inp : ProvisionIn) :
    DB × Cloud × List CloudCall × Except HTTPError ProvisionOut :=
  match _ensure_name inp.name with
  | .error e => (db, cloud, [], .error e)
  | .ok _ =>
    let address_name := default_address_name inp
    match _ensure_name address_name with
    | .error e => (db, cloud, [], .error e)
    | .ok _ =>
      let created := _create_agent db env.freshToken inp.profile_id (some inp.name)
      let db1 := created.1
      let agent := created.2
      let rp := _pick_project env.quota db1.projects
      let db2 := { db1 with projects := rp.1 }
      let quotaCalls := db1.projects.map (fun p => CloudCall.quotaGet p.project_id)
      match rp.2 with
      | .error e => (db2, cloud, quotaCalls, .error e)
      | .ok project =>
        let fw := ensure_fw env.faults cloud project.project_id
        let calls1 := quotaCalls ++ fw.calls
        match fw.result with
        | .error e => (db2, fw.cloud, calls1, .error e)
        | .ok _ =>
          let addrStep : Cloud × List CloudCall × Except HTTPError Unit :=
            if inp.create_ip then
              let ca := create_address_op env.faults fw.cloud project.project_id address_name
              (ca.1, [.addrCreate project.project_id address_name], ca.2)
            else (fw.cloud, [], .ok ())
          match addrStep.2.2 with
          | .error e => (db2, addrStep.1, calls1 ++ addrStep.2.1, .error e)
          | .ok _ =>
            let ci := create_instance_op env.faults addrStep.1 project.project_id inp.name env.instIP
            let calls2 := calls1 ++ addrStep.2.1 ++ [.instCreate project.project_id inp.name]
            match ci.2 with
            | .error e => (db2, ci.1, calls2, .error e)
            | .ok inst =>
              let agent2 := { agent with
                vm_name := some inp.name,
                address_name := some address_name,
                public_ip := inst.natIP,
                instance_json := some inst }
              let db3 := { db2 with agents := updateAgent db2.agents agent2 }
              let db4 :=
                match inp.profile_id with
                | none => db3
                | some pid =>
                  if pid = 0 then db3
                  else
                    match db3.profiles.find? (fun pr => pr.id == pid) with
                    | none => db3
                    | some pr =>
                      let nj := netSummary inp address_name inst.natIP project.project_id agent2.id
                      let pr2 := { pr with network_json := some nj }
                      { db3 with
                        profiles := db3.profiles.map (fun q => if q.id = pid then pr2 else q) }
              (db4, ci.1, calls2,
                .ok ⟨agent2.id, agent2.agent_token, inp.name, address_name, inst⟩)

/-- `schemas`-level input of `POST /infra/instances` (`InstanceCreateIn`). -/
structure InstanceCreateIn where
  name : String
  address_name : Option String := none
  machine_type : Option String := none
  startup_script : Option String := none
  disk_size_gb : Option Nat := none
  preemptible : Bool := false
deriving DecidableEq, Repr

/-- `infra.create_vm` (`POST /infra/instances`): validates the names and
creates the instance in the default project directly — it takes no database
session and touches no agent record.  The store is threaded through
unchanged to make that visible. -/
def create_vm (f : Faults) (db : DB) (cloud : Cloud) (inp : InstanceCreateIn)
    (natIP : Option String) : DB × Cloud × Except HTTPError InstanceDesc :=
  match _ensure_name inp.name with
  | .error e => (db, cloud, .error e)
  | .ok _ =>
    let addrCheck : Except HTTPError Unit :=
      match inp.address_name with
      | none => .ok ()
      | some a => if a = "" then .ok () else _ensure_name a
    match addrCheck with
    | .error e => (db, cloud, .error e)
    | .ok _ =>
      let ci := create_instance_op f cloud GCP_PROJECT inp.name natIP
      (db, ci.1, ci.2)

def dbEmpty : DB := ⟨[], [], [], 1⟩

def cloudEmpty : Cloud := ⟨[], [], []⟩

/-- Environment for runs where no project has quota headroom reported. -/
def envW : ProvisionEnv := ⟨fun _ => none, noFaults, "tok-abc123", none⟩

/-- Environment where every project is under quota and all provider calls
succeed. -/
def envOK : ProvisionEnv :=
  ⟨fun _ => some ⟨some 3, some 8⟩, noFaults, "tok-abc123", some "203.0.113.5"⟩

/-- Store with one registered project. -/
def dbOneProj : DB := ⟨[], [⟨1, "p1", true⟩], [], 1⟩

def inpInvalid : ProvisionIn := { name := "Invalid_Name!" }

def inpGood : ProvisionIn := { name := "good-node" }

def inpVmW : InstanceCreateIn := { name := "abc-node" }

/-- A stored agent row used to exercise the agent-facing endpoints. -/
def agentW : NaveExit :=
  { id := 7, profile_id := none, vm_name := some "vm-a",
    agent_token := "secret-token-1234", desired_json := none,
    status_json := none, last_seen_at := none }

/-- Abstract content hash standing in for sha256 hexdigest (nonempty on
nonempty input, as a hexdigest is). -/
def hashW : String → String := fun s => "#" ++ s

/-- Concrete quota oracle: `p1` at usage = limit, `p2` under quota. -/
def quotaW : String → Option QuotaInfo :=
  fun s => if s = "p1" then some ⟨some 8, some 8⟩ else some ⟨some 3, some 8⟩

/-- Concrete registered-project store, in registration order. -/
def projsW : List NaveProject := [⟨1, "p1", true⟩, ⟨2, "p2", true⟩]

lemma pickLoop_fst (quota : String → Option QuotaInfo) (l : List NaveProject)
    (ch : Option NaveProject) :
    (pickLoop quota l ch).1 =
      l.map (fun p => { p with is_active := _project_has_quota (quota p.project_id) }) := by
  induction l generalizing ch with
  | nil => rfl
  | cons p rest ih =>
    by_cases h : _project_has_quota (quota p.project_id)
    · simp [pickLoop, h, ih]
    · simp [pickLoop, h, ih]

lemma pickLoop_snd (quota : String → Option QuotaInfo) (l : List NaveProject)
    (ch : Option NaveProject) :
    (pickLoop quota l ch).2 =
      match ch with
      | some c => some c
      | none => (l.find? (fun p => _project_has_quota (quota p.project_id))).map
          (fun p => { p with is_active := true }) := by
  induction l generalizing ch with
  | nil => cases ch <;> rfl
  | cons p rest ih =>
    by_cases h : _project_has_quota (quota p.project_id)
    · cases ch with
      | some c => simp [pickLoop, h, ih, List.find?]
      | none => simp [pickLoop, h, ih, List.find?]
    · cases ch with
      | some c =>
        simp [pickLoop, eq_false_of_ne_true h, ih, List.find?]
      | none =>
        simp [pickLoop, eq_false_of_ne_true h, ih, List.find?]

/-- C1: For every Project Quota Pool scan over the registered projects taken
in registration order: the project returned (if any) is the first project in
registration order whose IP-address quota reports usage < limit or reports no
such metric (treated as unlimited); after the scan every scanned project with
usage >= limit has its active flag false, every scanned under-quota project
has its active flag true, and these flag updates are persisted (the list
returned by `_pick_project` is the committed store, with ids and order
unchanged); if no project is under quota (or none is registered) the scan
fails with a 503 ResourceExhausted error. -/
theorem C1_pick_project_scan (quota : String → Option QuotaInfo)
    (projects : List NaveProject) :
    (∀ p ∈ (_pick_project quota projects).1,
        p.is_active = _project_has_quota (quota p.project_id)) ∧
    ((_pick_project quota projects).1.map (fun p => (p.id, p.project_id)) =
        projects.map (fun p => (p.id, p.project_id))) ∧
    ((_pick_project quota projects).2 =
      match projects.find? (fun p => _project_has_quota (quota p.project_id)) with
      | some p => .ok { p with is_active := true }
      | none => .error (if projects.isEmpty then errNoProjects else errNoQuota)) := by
  by_cases hemp : projects.isEmpty
  · have : projects = [] := List.isEmpty_iff.mp hemp
    subst this
    refine ⟨by simp [_pick_project], by simp [_pick_project], ?_⟩
    simp [_pick_project, List.find?]
  · refine ⟨?_, ?_, ?_⟩
    · intro p hp
      have h1 : (_pick_project quota projects).1 = (pickLoop quota projects none).1 := by
        simp [_pick_project, hemp]
        cases hfind : (pickLoop quota projects none).2 <;> simp [hfind]
      rw [h1, pickLoop_fst] at hp
      rcases List.mem_map.mp hp with ⟨q, _, rfl⟩
      rfl
    · have h1 : (_pick_project quota projects).1 = (pickLoop quota projects none).1 := by
        simp [_pick_project, hemp]
        cases hfind : (pickLoop quota projects none).2 <;> simp [hfind]
      rw [h1, pickLoop_fst]
      simp
    · have h2 := pickLoop_snd quota projects none
      simp only [_pick_project, hemp, if_false]
      cases hfind : projects.find? (fun p => _project_has_quota (quota p.project_id)) with
      | none =>
        rw [hfind] at h2
        simp at h2
        simp [h2, hemp]
      | some p =>
        rw [hfind] at h2
        simp at h2
        simp [h2]

/-- Witness for C1 at a concrete scan: with `p1` at usage = limit and `p2`
under quota, the scanned store has each flag equal to its quota check; in
particular `p1` ends up deactivated. -/
theorem C1_pick_project_scan_witness :
    (⟨1, "p1", false⟩ : NaveProject).is_active = _project_has_quota (quotaW "p1") :=
  (C1_pick_project_scan quotaW projsW).1 ⟨1, "p1", false⟩ (by decide)

lemma backoffSeq_step (j : Nat) : min (backoffSeq j * 2) 20 = backoffSeq (j + 1) := by
  unfold backoffSeq
  have h : (2 : Nat) ^ (j + 1 + 1) = 2 ^ (j + 1) * 2 := by ring
  rw [h]
  omega

lemma backoffSeq_mono : Monotone backoffSeq := by
  intro a b hab
  exact min_le_min (Nat.pow_le_pow_right (by norm_num) (by omega)) le_rfl

lemma range_map_backoff_succ (j : Nat) :
    backoffSeq j :: ((List.range j).map backoffSeq).reverse =
      ((List.range (j + 1)).map backoffSeq).reverse := by
  rw [List.range_succ]
  simp

lemma enable_outer_log (trace : Nat → ProviderResp) (timeout_s : Nat) :
    ∀ fuel k now j log r,
      enable_outer trace timeout_s fuel k now (backoffSeq j)
          (((List.range j).map backoffSeq).reverse) = some (log, r) →
      log = (List.range log.length).map backoffSeq := by
  intro fuel
  induction fuel with
  | zero =>
    intro k now j log r h
    simp [enable_outer] at h
  | succ fuel ih =>
    intro k now j log r h
    have base : ∀ l : List Nat, l = (List.range j).map backoffSeq →
        l = (List.range l.length).map backoffSeq := by
      intro l hl
      subst hl
      simp
    rw [enable_outer] at h
    cases htr : trace k with
    | fail e =>
      rw [htr] at h
      by_cases ht : isTransient e.detail
      · by_cases htime : now > timeout_s
        · simp [ht, htime] at h
          exact base log h.1.symm
        · simp [ht, htime] at h
          rw [range_map_backoff_succ, backoffSeq_step] at h
          exact ih _ _ (j + 1) _ _ h
      · simp [ht] at h
        exact base log h.1.symm
    | json done name =>
      rw [htr] at h
      by_cases hd : done
      · simp [hd] at h
        exact base log h.1.symm
      · cases hn : name with
        | none =>
          simp [hd, hn] at h
          exact base log h.1.symm
        | some n =>
          by_cases hend : strEndsWith n "DONE_OPERATION"
          · simp [hd, hn, hend] at h
            exact base log h.1.symm
          · simp only [hd, hn, hend, if_false, Bool.false_eq_true] at h
            cases hpoll : poll_inner trace timeout_s fuel (k + 1) now with
            | none => rw [hpoll] at h; simp at h
            | some pr =>
              obtain ⟨k', now', res⟩ := pr
              rw [hpoll] at h
              cases res with
              | ok u =>
                simp at h
                exact base log h.1.symm
              | error e =>
                by_cases ht : isTransient e.detail
                · by_cases htime : now' > timeout_s
                  · simp [ht, htime] at h
                    exact base log h.1.symm
                  · simp [ht, htime] at h
                    rw [range_map_backoff_succ, backoffSeq_step] at h
                    exact ih _ _ (j + 1) _ _ h
                · simp [ht] at h
                  exact base log h.1.symm

lemma backoff_log_pattern (log : List Nat)
    (hlog : log = (List.range log.length).map backoffSeq) :
    log.Chain' (· ≤ ·) ∧ (∀ x ∈ log, 2 ≤ x ∧ x ≤ 20) ∧
      (log ≠ [] → log.head? = some 2) := by
  refine ⟨?_, ?_, ?_⟩
  · rw [hlog]
    refine List.Pairwise.chain' ?_
    refine (List.pairwise_map).2 ?_
    exact (List.pairwise_lt_range _).imp (fun hab => backoffSeq_mono hab.le)
  · intro x hx
    rw [hlog] at hx
    rcases List.mem_map.mp hx with ⟨i, -, rfl⟩
    have h2 : (2 : Nat) ^ 1 ≤ 2 ^ (i + 1) := Nat.pow_le_pow_right (by norm_num) (by omega)
    exact ⟨le_min (by simpa using h2) (by norm_num), min_le_right _ _⟩
  · intro hne
    cases hl : log with
    | nil => exact absurd hl hne
    | cons a t =>
      rw [hl] at hlog
      rw [List.length_cons, List.range_succ_eq_map] at hlog
      simp at hlog
      simp [hl, hlog.1]
      rfl

/-- C2 (amended): for every service-enablement run, the backoff-sleep
sequence follows `backoffSeq` (2, 4, 8, 16, 20, 20, …), hence is
non-decreasing, starts at 2 seconds and is capped at 20 seconds; a provider
error whose message is classified transient is retried after sleeping the
current backoff while the budget remains, but once the elapsed time exceeds
the budget the call fails by re-raising that transient provider error (it is
not converted to a 504 TimeoutError; the 504 arises only in the inner
operation-polling loop); every provider error not in the transient class is
raised immediately without retry. -/
theorem C2_enable_service_backoff :
    (∀ trace timeout_s fuel log r,
        enable_service trace timeout_s fuel = some (log, r) →
        log = (List.range log.length).map backoffSeq ∧
        log.Chain' (· ≤ ·) ∧ (∀ x ∈ log, 2 ≤ x ∧ x ≤ 20) ∧
        (log ≠ [] → log.head? = some 2)) ∧
    (∀ trace timeout_s fuel k now backoff log e, trace k = .fail e →
        isTransient e.detail = false →
        enable_outer trace timeout_s (fuel + 1) k now backoff log =
          some (log.reverse, .error e)) ∧
    (∀ trace timeout_s fuel k now backoff log e, trace k = .fail e →
        isTransient e.detail = true → now > timeout_s →
        enable_outer trace timeout_s (fuel + 1) k now backoff log =
          some (log.reverse, .error e)) ∧
    (∀ trace timeout_s fuel k now backoff log e, trace k = .fail e →
        isTransient e.detail = true → ¬now > timeout_s →
        enable_outer trace timeout_s (fuel + 1) k now backoff log =
          enable_outer trace timeout_s fuel (k + 1) (now + backoff)
            (min (backoff * 2) 20) (backoff :: log)) := by
  refine ⟨?_, ?_, ?_, ?_⟩
  · intro trace timeout_s fuel log r h
    have hpat : log = (List.range log.length).map backoffSeq := by
      have h0 : enable_outer trace timeout_s fuel 0 0 (backoffSeq 0)
          (((List.range 0).map backoffSeq).reverse) = some (log, r) := by
        simpa [backoffSeq, enable_service] using h
      exact enable_outer_log trace timeout_s fuel 0 0 0 log r h0
    exact ⟨hpat, backoff_log_pattern log hpat⟩
  · intro trace timeout_s fuel k now backoff log e htr ht
    rw [enable_outer, htr]
    simp [ht]
  · intro trace timeout_s fuel k now backoff log e htr ht htime
    rw [enable_outer, htr]
    simp [ht, htime]
  · intro trace timeout_s fuel k now backoff log e htr ht htime
    rw [enable_outer, htr]
    simp [ht, htime]

/-- Witness for C2 at a concrete run: a provider answering every call with a
transient permission error, budget 5 seconds: the run sleeps 2 then 4
seconds and then fails; the sleep log matches the backoff schedule. -/
theorem C2_enable_service_backoff_witness :
    ([2, 4] : List Nat) = (List.range ([2, 4] : List Nat).length).map backoffSeq ∧
    ([2, 4] : List Nat).Chain' (· ≤ ·) ∧
    (∀ x ∈ ([2, 4] : List Nat), 2 ≤ x ∧ x ≤ 20) ∧
    (([2, 4] : List Nat) ≠ [] → ([2, 4] : List Nat).head? = some 2) :=
  C2_enable_service_backoff.1 tr403 5 10 [2, 4]
    (.error ⟨403, "GCP error: PERMISSION_DENIED: service not used"⟩) (by rfl)

/-- Counterexample to C2 as stated: with every call answered by a transient
permission error and a 5-second budget, the call fails once the budget is
exceeded — but with the provider's 403 error, not a 504 TimeoutError. -/
theorem C2_budget_not_timeout_counterexample :
    enable_service tr403 5 10 =
      some ([2, 4],
        .error ⟨403, "GCP error: PERMISSION_DENIED: service not used"⟩) ∧
    (403 : Nat) ≠ 504 := by
  constructor
  · rfl
  · decide

/-- C5: For every reconciliation-agent cycle (with `h` the content hash,
nonempty on nonempty input as a sha256 hexdigest is): after a successful
apply the in-memory last-applied hash equals the hash of the most recently
fetched non-empty configuration; when the apply step raises, the last-applied
hash is left unchanged and nothing counts as applied; and a subsequent cycle
fetching identical content performs no reapply and leaves the hash
unchanged. -/
theorem C5_agent_cycle_hash (h : String → String)
    (hne : ∀ s, s ≠ "" → h s ≠ "") :
    (∀ last conf, conf ≠ "" → (agent_cycle h .ok last conf).last_hash = h conf) ∧
    (∀ m last conf, (agent_cycle h (.raise m) last conf).last_hash = last ∧
        (agent_cycle h (.raise m) last conf).applied = false) ∧
    (∀ ap1 ap2 last conf, (agent_cycle h ap1 last conf).errored = false →
        agent_cycle h ap2 (agent_cycle h ap1 last conf).last_hash conf =
          ⟨(agent_cycle h ap1 last conf).last_hash, false, false⟩) := by
  refine ⟨?_, ?_, ?_⟩
  · intro last conf hconf
    have hh := hne conf hconf
    by_cases hch : h conf = last
    · simp [agent_cycle, hconf, hch]
    · simp [agent_cycle, hconf, hch, hh]
  · intro m last conf
    constructor <;> (simp only [agent_cycle]; split <;> split <;> rfl)
  · intro ap1 ap2 last conf herr
    by_cases hconf : conf = ""
    · simp [agent_cycle, hconf]
    · by_cases hh0 : h conf = ""
      · simp [agent_cycle, hconf, hh0]
      · by_cases hch : h conf = last
        · simp [agent_cycle, hconf, hh0, hch]
        · cases ap1 with
          | ok => simp [agent_cycle, hconf, hh0, hch]
          | raise m => simp [agent_cycle, hconf, hh0, hch] at herr

lemma hashW_ne (s : String) (hs : s ≠ "") : hashW s ≠ "" := by
  intro hcon
  have hdata := congrArg String.data hcon
  simp [hashW] at hdata

/-- Witness for C5 at a concrete cycle: fetching "confA" with an empty
last-applied hash and a successful apply leaves the hash at the content
hash of "confA". -/
theorem C5_agent_cycle_hash_witness :
    (agent_cycle hashW .ok "" "confA").last_hash = hashW "confA" :=
  (C5_agent_cycle_hash hashW hashW_ne).1 "" "confA" (by decide)

/-- C8: the ensure-firewall-rule step looks the rule up by name first and
issues a create call only when the lookup reports a 404, so running the step
twice against the same project (with a fault-free provider) issues at most
one create call in total, the second run issues none and is a no-op on the
provider state, and both runs succeed. -/
theorem C8_ensure_firewall_idempotent (f : Faults) (c : Cloud) (project : String)
    (h1 : f.fwGet = none) (h2 : f.fwCreate = none) :
    (ensure_fw f c project).result = .ok () ∧
    (ensure_fw f (ensure_fw f c project).cloud project).result = .ok () ∧
    (ensure_fw f (ensure_fw f c project).cloud project).creates = 0 ∧
    (ensure_fw f c project).creates +
        (ensure_fw f (ensure_fw f c project).cloud project).creates ≤ 1 ∧
    (ensure_fw f (ensure_fw f c project).cloud project).cloud =
      (ensure_fw f c project).cloud := by
  by_cases hmem : (project, "nave-wg-udp-51820") ∈ c.firewalls
  · simp [ensure_fw, get_firewall, h1, hmem]
  · have hmem2 : (project, "nave-wg-udp-51820") ∈
        c.firewalls ++ [(project, "nave-wg-udp-51820")] := by simp
    simp [ensure_fw, get_firewall, create_firewall_rule, h1, h2, hmem, hmem2]

/-- Witness for C8 at a concrete provider: starting from an empty provider,
two runs against project "p2" create the rule exactly once. -/
theorem C8_ensure_firewall_idempotent_witness :
    (ensure_fw noFaults cloudEmpty "p2").result = .ok () ∧
    (ensure_fw noFaults (ensure_fw noFaults cloudEmpty "p2").cloud "p2").result = .ok () ∧
    (ensure_fw noFaults (ensure_fw noFaults cloudEmpty "p2").cloud "p2").creates = 0 ∧
    (ensure_fw noFaults cloudEmpty "p2").creates +
        (ensure_fw noFaults (ensure_fw noFaults cloudEmpty "p2").cloud "p2").creates ≤ 1 ∧
    (ensure_fw noFaults (ensure_fw noFaults cloudEmpty "p2").cloud "p2").cloud =
      (ensure_fw noFaults cloudEmpty "p2").cloud :=
  C8_ensure_firewall_idempotent noFaults cloudEmpty "p2" rfl rfl

lemma find?_append_some {α : Type} (p : α → Bool) {l1 : List α} (l2 : List α) {a : α}
    (h : l1.find? p = some a) : (l1 ++ l2).find? p = some a := by
  induction l1 with
  | nil => simp [List.find?] at h
  | cons x t ih =>
    by_cases hx : p x
    · rw [List.find?_cons_of_pos _ hx] at h
      rw [List.cons_append, List.find?_cons_of_pos _ hx]
      exact h
    · rw [List.find?_cons_of_neg _ hx] at h
      rw [List.cons_append, List.find?_cons_of_neg _ hx]
      exact ih h

lemma find?_append_none {α : Type} (p : α → Bool) {l1 : List α} (l2 : List α)
    (h : l1.find? p = none) : (l1 ++ l2).find? p = l2.find? p := by
  induction l1 with
  | nil => simp
  | cons x t ih =>
    by_cases hx : p x
    · rw [List.find?_cons_of_pos _ hx] at h
      exact absurd h (by simp)
    · rw [List.find?_cons_of_neg _ hx] at h
      rw [List.cons_append, List.find?_cons_of_neg _ hx]
      exact ih h

lemma register_store_mono : ∀ (pids : List String) (P : List NaveProject) (n : Nat),
    P <+: (register_projects P n pids).1.1 := by
  intro pids
  induction pids with
  | nil => intro P n; exact List.prefix_rfl
  | cons pid0 rest ih =>
    intro P n
    by_cases hb : pyStrip pid0 = ""
    · simp only [register_projects, hb, if_true]
      exact ih P n
    · simp only [register_projects, hb, if_false]
      cases hf : P.find? (fun p => p.project_id == pyStrip pid0) with
      | some e =>
        simp only [hf]
        exact ih P n
      | none =>
        simp only [hf]
        exact List.IsPrefix.trans (List.prefix_append P _) (ih _ _)

lemma register_complete : ∀ (pids : List String) (P : List NaveProject) (n : Nat)
    (pid : String), pid ∈ pids → pyStrip pid ≠ "" →
    ((register_projects P n pids).1.1.find?
      (fun p => p.project_id == pyStrip pid)).isSome := by
  intro pids
  induction pids with
  | nil => intro P n pid hmem; simp at hmem
  | cons pid0 rest ih =>
    intro P n pid hmem hnb
    rcases List.mem_cons.mp hmem with rfl | hmem2
    · simp only [register_projects, hnb, if_false]
      cases hf : P.find? (fun p => p.project_id == pyStrip pid) with
      | some e =>
        simp only [hf]
        obtain ⟨t, ht⟩ := register_store_mono rest P n
        rw [← ht, find?_append_some _ t hf]
        rfl
      | none =>
        simp only [hf]
        obtain ⟨t, ht⟩ :=
          register_store_mono rest (P ++ [⟨n, pyStrip pid, true⟩]) (n + 1)
        rw [← ht]
        have hone : ((P ++ [(⟨n, pyStrip pid, true⟩ : NaveProject)]).find?
            (fun p => p.project_id == pyStrip pid)) = some ⟨n, pyStrip pid, true⟩ := by
          rw [find?_append_none _ _ hf]
          simp [List.find?]
        rw [find?_append_some _ t hone]
        rfl
    · by_cases hb : pyStrip pid0 = ""
      · simp only [register_projects, hb, if_true]
        exact ih P n pid hmem2 hnb
      · simp only [register_projects, hb, if_false]
        cases hf : P.find? (fun p => p.project_id == pyStrip pid0) with
        | some e =>
          simp only [hf]
          exact ih P n pid hmem2 hnb
        | none =>
          simp only [hf]
          exact ih _ _ pid hmem2 hnb

lemma register_noop : ∀ (pids : List String) (P : List NaveProject) (n : Nat),
    (∀ pid ∈ pids, pyStrip pid ≠ "" →
      (P.find? (fun p => p.project_id == pyStrip pid)).isSome) →
    (register_projects P n pids).1 = (P, n) := by
  intro pids
  induction pids with
  | nil => intro P n _; rfl
  | cons pid0 rest ih =>
    intro P n hall
    by_cases hb : pyStrip pid0 = ""
    · simp only [register_projects, hb, if_true]
      exact ih P n (fun pid hm => hall pid (List.mem_cons_of_mem _ hm))
    · have hsome := hall pid0 (List.mem_cons_self _ _) hb
      obtain ⟨e, hf⟩ := Option.isSome_iff_exists.mp hsome
      simp only [register_projects, hb, if_false, hf]
      exact ih P n (fun pid hm => hall pid (List.mem_cons_of_mem _ hm))

/-- C10: project registration is idempotent: a blank (after trimming)
identifier is skipped; an identifier already present yields the existing
row with the store unchanged (in particular its active flag is not
modified); a new identifier is inserted with its active flag true; and
submitting the same list twice leaves the store (rows and autoincrement
counter) identical to submitting it once. -/
theorem C10_register_projects_idempotent :
    (∀ (P : List NaveProject) (n : Nat) (pid : String), pyStrip pid = "" →
        register_projects P n [pid] = ((P, n), [])) ∧
    (∀ (P : List NaveProject) (n : Nat) (pid : String) (e : NaveProject),
        pyStrip pid ≠ "" → P.find? (fun p => p.project_id == pyStrip pid) = some e →
        register_projects P n [pid] = ((P, n), [e])) ∧
    (∀ (P : List NaveProject) (n : Nat) (pid : String), pyStrip pid ≠ "" →
        P.find? (fun p => p.project_id == pyStrip pid) = none →
        register_projects P n [pid] =
          ((P ++ [⟨n, pyStrip pid, true⟩], n + 1), [⟨n, pyStrip pid, true⟩])) ∧
    (∀ (pids : List String) (P : List NaveProject) (n : Nat),
        (register_projects (register_projects P n pids).1.1
            (register_projects P n pids).1.2 pids).1 =
          (register_projects P n pids).1) := by
  refine ⟨?_, ?_, ?_, ?_⟩
  · intro P n pid hb
    simp [register_projects, hb]
  · intro P n pid e hnb hf
    simp [register_projects, hnb, hf]
  · intro P n pid hnb hf
    simp [register_projects, hnb, hf]
  · intro pids P n
    rw [register_noop pids (register_projects P n pids).1.1
      (register_projects P n pids).1.2
      (fun pid hm hnb => register_complete pids P n pid hm hnb)]

/-- Witness for C10: re-submitting an already-registered identifier (with
surrounding whitespace, and an inactive flag on the stored row) changes
nothing and returns the existing row. -/
theorem C10_register_projects_idempotent_witness :
    register_projects [⟨1, "p1", false⟩] 5 [" p1 "] =
      (([⟨1, "p1", false⟩], 5), [⟨1, "p1", false⟩]) :=
  C10_register_projects_idempotent.2.1 [⟨1, "p1", false⟩] 5 " p1 " ⟨1, "p1", false⟩
    (by decide) (by decide)

lemma agent_from_token_error_iff (agents : List NaveExit) (agent_id : Nat)
    (token : Option String) (hne : ∀ a ∈ agents, a.agent_token ≠ "") :
    (∃ e, _agent_from_token agents agent_id token = .error e) ↔
      ¬∃ a ∈ agents, a.id = agent_id ∧ token = some a.agent_token := by
  cases token with
  | none => simp [_agent_from_token]
  | some t =>
    by_cases ht : t = ""
    · subst ht
      simp only [_agent_from_token, if_pos rfl]
      constructor
      · rintro - ⟨a, ha, -, heq⟩
        injection heq with heq2
        exact hne a ha heq2.symm
      · intro _
        exact ⟨⟨401, "Token de agente requerido"⟩, rfl⟩
    · simp only [_agent_from_token, if_neg ht]
      cases hf : agents.find? (fun a => a.id == agent_id && a.agent_token == t) with
      | none =>
        simp only [hf]
        constructor
        · rintro - ⟨a, ha, hid, heq⟩
          injection heq with heq2
          have hpred := List.find?_eq_none.mp hf a ha
          apply hpred
          simp [hid, heq2]
        · intro _
          exact ⟨⟨401, "Agente invalido"⟩, rfl⟩
      | some a =>
        simp only [hf]
        have hmem := List.mem_of_find?_eq_some hf
        have hpred := List.find?_some hf
        simp only [Bool.and_eq_true, beq_iff_eq] at hpred
        constructor
        · rintro ⟨e, he⟩
          exact absurd he (by simp)
        · intro hnex
          exact absurd ⟨a, hmem, hpred.1, congrArg some hpred.2.symm⟩ hnex

lemma agent_from_token_error_status (agents : List NaveExit) (agent_id : Nat)
    (token : Option String) :
    ∀ e, _agent_from_token agents agent_id token = .error e → e.status = 401 := by
  intro e he
  cases token with
  | none =>
    simp only [_agent_from_token] at he
    injection he with he2
    rw [← he2]
  | some t =>
    simp only [_agent_from_token] at he
    by_cases ht : t = ""
    · rw [if_pos ht] at he
      injection he with he2
      rw [← he2]
    · rw [if_neg ht] at he
      cases hf : agents.find? (fun a => a.id == agent_id && a.agent_token == t) with
      | none =>
        rw [hf] at he
        injection he with he2
        rw [← he2]
      | some a =>
        rw [hf] at he
        exact absurd he (by simp)

/-- C4: for every agent identifier and every presented token, `getDesired`
and `setStatus` fail (with a 401 AuthenticationError, leaving the record
store unchanged) exactly when the token is absent or does not equal the
stored bootstrap token of a record with that identifier; when the token
matches, `getDesired` updates last-seen and returns the record's
desired-configuration blob (empty if unset), and `setStatus` overwrites the
record's status blob and last-seen.  (`hne` records that stored bootstrap
tokens, generated by `secrets.token_urlsafe(32)`, are never empty.) -/
theorem C4_agent_token_auth (agents : List NaveExit) (agent_id : Nat)
    (token : Option String) (now : Nat) (status_in : List (String × String))
    (hne : ∀ a ∈ agents, a.agent_token ≠ "") :
    ((∃ e, (get_agent_desired agents agent_id token now).2 = .error e) ↔
        ¬∃ a ∈ agents, a.id = agent_id ∧ token = some a.agent_token) ∧
    (∀ e, (get_agent_desired agents agent_id token now).2 = .error e →
        e.status = 401 ∧ (get_agent_desired agents agent_id token now).1 = agents) ∧
    ((∃ e, (set_agent_status agents agent_id token status_in now).2 = .error e) ↔
        ¬∃ a ∈ agents, a.id = agent_id ∧ token = some a.agent_token) ∧
    (∀ e, (set_agent_status agents agent_id token status_in now).2 = .error e →
        e.status = 401 ∧ (set_agent_status agents agent_id token status_in now).1 = agents) ∧
    (∀ a, _agent_from_token agents agent_id token = .ok a →
        get_agent_desired agents agent_id token now =
          (updateAgent agents { a with last_seen_at := some now },
            .ok (a.id, a.desired_json.getD [])) ∧
        set_agent_status agents agent_id token status_in now =
          (updateAgent agents
            { a with status_json := some status_in, last_seen_at := some now },
            .ok ())) := by
  have hget : (∃ e, (get_agent_desired agents agent_id token now).2 = .error e) ↔
      (∃ e, _agent_from_token agents agent_id token = .error e) := by
    cases haft : _agent_from_token agents agent_id token <;>
      simp [get_agent_desired, haft]
  have hset : (∃ e, (set_agent_status agents agent_id token status_in now).2 = .error e) ↔
      (∃ e, _agent_from_token agents agent_id token = .error e) := by
    cases haft : _agent_from_token agents agent_id token <;>
      simp [set_agent_status, haft]
  refine ⟨hget.trans (agent_from_token_error_iff agents agent_id token hne), ?_,
    hset.trans (agent_from_token_error_iff agents agent_id token hne), ?_, ?_⟩
  · intro e he
    cases haft : _agent_from_token agents agent_id token with
    | error e0 =>
      simp only [get_agent_desired, haft] at he ⊢
      injection he with he2
      exact ⟨he2 ▸ agent_from_token_error_status agents agent_id token e0 haft, trivial⟩
    | ok a => simp [get_agent_desired, haft] at he
  · intro e he
    cases haft : _agent_from_token agents agent_id token with
    | error e0 =>
      simp only [set_agent_status, haft] at he ⊢
      injection he with he2
      exact ⟨he2 ▸ agent_from_token_error_status agents agent_id token e0 haft, trivial⟩
    | ok a => simp [set_agent_status, haft] at he
  · intro a haft
    constructor
    · simp [get_agent_desired, haft]
    · simp [set_agent_status, haft]

/-- Witness for C4: a garbage token presented against the stored record is
rejected by `getDesired`. -/
theorem C4_agent_token_auth_witness :
    ∃ e, (get_agent_desired [agentW] 7 (some "garbage") 0).2 = .error e :=
  (C4_agent_token_auth [agentW] 7 (some "garbage") 0 [] (by decide)).1.mpr (by decide)

lemma find?_update_id (agents : List NaveExit) (a a2 : NaveExit) (pid : Nat)
    (hfind : agents.find? (fun b => b.id == pid) = some a) (hid : a2.id = a.id) :
    (updateAgent agents a2).find? (fun b => b.id == pid) = some a2 := by
  induction agents with
  | nil => simp [List.find?] at hfind
  | cons b l ih =>
    by_cases hb : (b.id == pid) = true
    · simp only [List.find?, hb] at hfind
      injection hfind with hba
      simp only [updateAgent, List.map_cons]
      rw [if_pos (by rw [hba]; exact hid.symm)]
      have h2 : (a2.id == pid) = true := by rw [hid, ← hba]; exact hb
      simp [List.find?, h2]
    · have hbf : (b.id == pid) = false := by simpa using hb
      simp only [List.find?, hbf] at hfind
      have hane : (a.id == pid) = true := by simpa using List.find?_some hfind
      have hbne : ¬b.id = a2.id := by
        intro hcon
        apply hb
        rw [hcon, hid]
        exact hane
      simp only [updateAgent, List.map_cons]
      rw [if_neg hbne]
      simp only [List.find?, hbf]
      exact ih hfind

lemma find?_update_tok (agents : List NaveExit) (a a2 : NaveExit) (agent_id : Nat)
    (hfind : agents.find? (fun b => b.id == agent_id) = some a)
    (hid : a2.id = a.id) (htok : a2.agent_token = a.agent_token) :
    (updateAgent agents a2).find?
      (fun b => b.id == agent_id && b.agent_token == a.agent_token) = some a2 := by
  induction agents with
  | nil => simp [List.find?] at hfind
  | cons b l ih =>
    by_cases hb : (b.id == agent_id) = true
    · simp only [List.find?, hb] at hfind
      injection hfind with hba
      simp only [updateAgent, List.map_cons]
      rw [if_pos (by rw [hba]; exact hid.symm)]
      have hb2 : (a.id == agent_id) = true := by rw [← hba]; exact hb
      have hpred : (a2.id == agent_id && a2.agent_token == a.agent_token) = true := by
        rw [hid, htok]
        simp [hb2]
      simp [List.find?, hpred]
    · have hbf : (b.id == agent_id) = false := by simpa using hb
      simp only [List.find?, hbf] at hfind
      have hane : (a.id == agent_id) = true := by simpa using List.find?_some hfind
      have hbne : ¬b.id = a2.id := by
        intro hcon
        apply hb
        rw [hcon, hid]
        exact hane
      simp only [updateAgent, List.map_cons]
      rw [if_neg hbne]
      have hpredb : (b.id == agent_id && b.agent_token == a.agent_token) = false := by
        simp [hbf]
      simp only [List.find?, hpredb]
      exact ih hfind

lemma mem_updateAgent_of_ne (agents : List NaveExit) (a2 b : NaveExit)
    (hb : b ∈ agents) (hne : b.id ≠ a2.id) : b ∈ updateAgent agents a2 :=
  List.mem_map.mpr ⟨b, hb, by rw [if_neg hne]⟩

/-- C9: round-trip of desired configuration: for the record addressed by
`agent_id` and any accepted configuration string (pydantic enforces length
at least 10), `setDesired` then `getDesired` with that record's token
returns exactly `{"wg_conf": conf}` both times; the desired blob is
overwritten wholesale and the final record differs from the original only
in the desired blob and (from the read) last-seen; every other record is
untouched. -/
theorem C9_desired_roundtrip (agents : List NaveExit) (agent_id : Nat) (conf : String)
    (now : Nat) (a : NaveExit)
    (hfind : dbGet agents agent_id = some a)
    (htok : a.agent_token ≠ "")
    (hlen : 10 ≤ conf.length) :
    (set_agent_desired agents agent_id conf).2 = .ok (a.id, [("wg_conf", conf)]) ∧
    (get_agent_desired (set_agent_desired agents agent_id conf).1 agent_id
        (some a.agent_token) now).2 = .ok (a.id, [("wg_conf", conf)]) ∧
    dbGet (get_agent_desired (set_agent_desired agents agent_id conf).1 agent_id
        (some a.agent_token) now).1 agent_id =
      some { a with desired_json := some [("wg_conf", conf)],
                    last_seen_at := some now } ∧
    ∀ b ∈ agents, b.id ≠ agent_id →
      b ∈ (get_agent_desired (set_agent_desired agents agent_id conf).1 agent_id
        (some a.agent_token) now).1 := by
  have haid : a.id = agent_id := by simpa using List.find?_some hfind
  have hset : set_agent_desired agents agent_id conf =
      (updateAgent agents { a with desired_json := some [("wg_conf", conf)] },
        .ok (a.id, [("wg_conf", conf)])) := by
    unfold set_agent_desired
    rw [hfind]
  have hfind1 : (updateAgent agents
        { a with desired_json := some [("wg_conf", conf)] }).find?
      (fun b => b.id == agent_id && b.agent_token == a.agent_token) =
      some { a with desired_json := some [("wg_conf", conf)] } :=
    find?_update_tok agents a _ agent_id hfind rfl rfl
  have haft : _agent_from_token
      (updateAgent agents { a with desired_json := some [("wg_conf", conf)] })
      agent_id (some a.agent_token) =
      .ok { a with desired_json := some [("wg_conf", conf)] } := by
    simp only [_agent_from_token, if_neg htok, hfind1]
  have hget : get_agent_desired (set_agent_desired agents agent_id conf).1 agent_id
      (some a.agent_token) now =
      (updateAgent (updateAgent agents { a with desired_json := some [("wg_conf", conf)] })
          { a with desired_json := some [("wg_conf", conf)], last_seen_at := some now },
        .ok (a.id, [("wg_conf", conf)])) := by
    rw [hset]
    simp only [get_agent_desired, haft, Option.getD_some]
  refine ⟨by rw [hset], by rw [hget], ?_, ?_⟩
  · rw [hget]
    have hfind2 : (updateAgent agents
          { a with desired_json := some [("wg_conf", conf)] }).find?
        (fun b => b.id == agent_id) =
        some { a with desired_json := some [("wg_conf", conf)] } :=
      find?_update_id agents a _ agent_id hfind rfl
    exact find?_update_id _ _ _ agent_id hfind2 rfl
  · intro b hbmem hbne
    rw [hget]
    have hbne2 : b.id ≠ a.id := fun hcon => hbne (hcon.trans haid)
    exact mem_updateAgent_of_ne _ _ _
      (mem_updateAgent_of_ne _ _ _ hbmem hbne2) hbne2

/-- Witness for C9 at a concrete store: setting then reading the desired
configuration of the stored record round-trips the configuration. -/
theorem C9_desired_roundtrip_witness :
    (set_agent_desired [agentW] 7 "wg-conf-body").2 =
      .ok (7, [("wg_conf", "wg-conf-body")]) :=
  (C9_desired_roundtrip [agentW] 7 "wg-conf-body" 3 agentW (by decide) (by decide)
    (by decide)).1

lemma cloudLe_refl (c : Cloud) : CloudLe c c :=
  ⟨List.prefix_rfl, List.prefix_rfl, List.prefix_rfl⟩

lemma cloudLe_trans {a b c : Cloud} (h1 : CloudLe a b) (h2 : CloudLe b c) :
    CloudLe a c :=
  ⟨h1.1.trans h2.1, h1.2.1.trans h2.2.1, h1.2.2.trans h2.2.2⟩

lemma ensure_fw_le (f : Faults) (c : Cloud) (p : String) :
    CloudLe c (ensure_fw f c p).cloud := by
  cases hfg : f.fwGet with
  | some e =>
    simp only [ensure_fw, get_firewall, hfg]
    by_cases h4 : e.status = 404
    · simp only [h4, ne_eq, not_true_eq_false, if_false]
      cases hfc : f.fwCreate with
      | some e2 => simp [create_firewall_rule, hfc, cloudLe_refl]
      | none =>
        simp only [create_firewall_rule, hfc]
        exact ⟨List.prefix_append _ _, List.prefix_rfl, List.prefix_rfl⟩
    · simp only [ne_eq, h4, not_false_eq_true, if_true]
      exact cloudLe_refl c
  | none =>
    simp only [ensure_fw, get_firewall, hfg]
    by_cases hmem : (p, "nave-wg-udp-51820") ∈ c.firewalls
    · simp only [hmem, if_true]
      exact cloudLe_refl c
    · simp only [hmem, if_false, ne_eq, not_true_eq_false]
      cases hfc : f.fwCreate with
      | some e2 => simp [create_firewall_rule, hfc, cloudLe_refl]
      | none =>
        simp only [create_firewall_rule, hfc]
        exact ⟨List.prefix_append _ _, List.prefix_rfl, List.prefix_rfl⟩

lemma create_address_le (f : Faults) (c : Cloud) (p n : String) :
    CloudLe c (create_address_op f c p n).1 := by
  cases hfa : f.addrCreate with
  | some e => simp [create_address_op, hfa, cloudLe_refl]
  | none =>
    simp only [create_address_op, hfa]
    exact ⟨List.prefix_rfl, List.prefix_append _ _, List.prefix_rfl⟩

lemma create_instance_le (f : Faults) (c : Cloud) (p n : String) (ip : Option String) :
    CloudLe c (create_instance_op f c p n ip).1 := by
  cases hfi : f.instCreate with
  | some e => simp [create_instance_op, hfi, cloudLe_refl]
  | none =>
    simp only [create_instance_op, hfi]
    exact ⟨List.prefix_rfl, List.prefix_rfl, List.prefix_append _ _⟩

lemma self_mem_updateAgent (agents : List NaveExit) (b a2 : NaveExit)
    (hb : b ∈ agents) (hid : b.id = a2.id) : a2 ∈ updateAgent agents a2 :=
  List.mem_map.mpr ⟨b, hb, by rw [if_pos hid]⟩

lemma provision_bad_name (env : ProvisionEnv) (db : DB) (cloud : Cloud)
    (inp : ProvisionIn) (h : _NAME_RE_match inp.name = false) :
    provision_vm env db cloud inp = (db, cloud, [], .error errBadName) := by
  simp [provision_vm, _ensure_name, h]

lemma provision_bad_addr (env : ProvisionEnv) (db : DB) (cloud : Cloud)
    (inp : ProvisionIn) (h1 : _NAME_RE_match inp.name = true)
    (h2 : _NAME_RE_match (default_address_name inp) = false) :
    provision_vm env db cloud inp = (db, cloud, [], .error errBadName) := by
  simp [provision_vm, _ensure_name, h1, h2]

lemma appended_agent_mem (l : List NaveExit) (a0 : NaveExit) : a0 ∈ l ++ [a0] := by
  simp

lemma updated_agent_mem (l : List NaveExit) (a0 a2 : NaveExit) (hid : a0.id = a2.id) :
    a2 ∈ updateAgent (l ++ [a0]) a2 :=
  self_mem_updateAgent _ a0 a2 (appended_agent_mem l a0) hid

lemma provision_agent_committed (env : ProvisionEnv) (db : DB) (cloud : Cloud)
    (inp : ProvisionIn) (h1 : _NAME_RE_match inp.name = true)
    (h2 : _NAME_RE_match (default_address_name inp) = true) :
    ∃ a ∈ (provision_vm env db cloud inp).1.agents,
      a.id = db.nextAgentId ∧ a.agent_token = env.freshToken ∧
      a.vm_name = some inp.name := by
  simp only [provision_vm, _ensure_name, h1, h2, if_true, _create_agent]
  repeat' split
  all_goals
    first
    | exact ⟨_, appended_agent_mem db.agents _, rfl, rfl, rfl⟩
    | exact ⟨_, updated_agent_mem db.agents _ _ rfl, rfl, rfl, rfl⟩

lemma provision_cloud_le (env : ProvisionEnv) (db : DB) (cloud : Cloud)
    (inp : ProvisionIn) : CloudLe cloud (provision_vm env db cloud inp).2.1 := by
  by_cases h1 : _NAME_RE_match inp.name = true
  · by_cases h2 : _NAME_RE_match (default_address_name inp) = true
    · simp only [provision_vm, _ensure_name, h1, h2, if_true, _create_agent]
      repeat' split
      all_goals
        first
        | exact cloudLe_refl cloud
        | exact ensure_fw_le _ _ _
        | exact cloudLe_trans (ensure_fw_le _ _ _) (create_address_le _ _ _ _)
        | exact cloudLe_trans (ensure_fw_le _ _ _) (create_instance_le _ _ _ _ _)
        | exact cloudLe_trans
            (cloudLe_trans (ensure_fw_le _ _ _) (create_address_le _ _ _ _))
            (create_instance_le _ _ _ _ _)
    · rw [provision_bad_addr env db cloud inp h1 (by simpa using h2)]
      exact cloudLe_refl cloud
  · rw [provision_bad_name env db cloud inp (by simpa using h1)]
    exact cloudLe_refl cloud

/-- C6: if the node name, or the address name it implies (default
`<name>-ip`), fails the name pattern, the provisioning workflow fails with a
400 ValidationError before any provider call is made (empty call log) and
before any AgentRecord is created: the store and the provider state are
returned unchanged. -/
theorem C6_validation_before_effects (env : ProvisionEnv) (db : DB) (cloud : Cloud)
    (inp : ProvisionIn) :
    (_NAME_RE_match inp.name = false →
        provision_vm env db cloud inp = (db, cloud, [], .error errBadName)) ∧
    (_NAME_RE_match inp.name = true →
        _NAME_RE_match (default_address_name inp) = false →
        provision_vm env db cloud inp = (db, cloud, [], .error errBadName)) :=
  ⟨provision_bad_name env db cloud inp, provision_bad_addr env db cloud inp⟩

/-- Witness for C6: the spec's scenario input "Invalid_Name!" is rejected
with no store change and no provider call. -/
theorem C6_validation_before_effects_witness :
    provision_vm envW dbEmpty cloudEmpty inpInvalid =
      (dbEmpty, cloudEmpty, [], .error errBadName) :=
  (C6_validation_before_effects envW dbEmpty cloudEmpty inpInvalid).1 (by decide)

/-- C7: once validation passes, the AgentRecord committed in step 2 — id
`db.nextAgentId`, carrying the freshly generated bootstrap token — is in the
store after the run whatever the outcome (in particular when a later step
such as project selection, firewall, address, or instance creation fails),
and no already-committed provider resource is rolled back (each provider
resource list only grows). -/
theorem C7_partial_failure_keeps_agent (env : ProvisionEnv) (db : DB) (cloud : Cloud)
    (inp : ProvisionIn) (h1 : _NAME_RE_match inp.name = true)
    (h2 : _NAME_RE_match (default_address_name inp) = true) :
    (∃ a ∈ (provision_vm env db cloud inp).1.agents,
        a.id = db.nextAgentId ∧ a.agent_token = env.freshToken ∧
        a.vm_name = some inp.name) ∧
    CloudLe cloud (provision_vm env db cloud inp).2.1 :=
  ⟨provision_agent_committed env db cloud inp h1 h2,
    provision_cloud_le env db cloud inp⟩

/-- Witness for C7: provisioning "good-node" against a store with no
registered projects fails at project selection, yet the agent row with its
fresh token is committed. -/
theorem C7_partial_failure_keeps_agent_witness :
    (∃ a ∈ (provision_vm envW dbEmpty cloudEmpty inpGood).1.agents,
        a.id = dbEmpty.nextAgentId ∧ a.agent_token = envW.freshToken ∧
        a.vm_name = some inpGood.name) ∧
    CloudLe cloudEmpty (provision_vm envW dbEmpty cloudEmpty inpGood).2.1 :=
  C7_partial_failure_keeps_agent envW dbEmpty cloudEmpty inpGood (by decide) (by decide)

/-- C3 (amended): within the provisioning workflow the invariant holds — an
instance-creation call is only issued after the AgentRecord for that node
has been committed, so whenever the run issued an instance-creation call the
final store holds an agent record for the node — but the invariant does not
extend to every instance-creating endpoint: the raw `POST /instances`
endpoint creates instances without any AgentRecord (see the
counterexample). -/
theorem C3_provision_instance_has_agent (env : ProvisionEnv) (db : DB)
    (cloud : Cloud) (inp : ProvisionIn) :
    (∃ p n, CloudCall.instCreate p n ∈ (provision_vm env db cloud inp).2.2.1) →
    ∃ a ∈ (provision_vm env db cloud inp).1.agents,
      a.vm_name = some inp.name ∧ a.agent_token = env.freshToken := by
  intro hcall
  by_cases h1 : _NAME_RE_match inp.name = true
  · by_cases h2 : _NAME_RE_match (default_address_name inp) = true
    · obtain ⟨a, ha, -, htok, hvm⟩ :=
        provision_agent_committed env db cloud inp h1 h2
      exact ⟨a, ha, hvm, htok⟩
    · rw [provision_bad_addr env db cloud inp h1 (by simpa using h2)] at hcall
      simp at hcall
  · rw [provision_bad_name env db cloud inp (by simpa using h1)] at hcall
    simp at hcall

/-- Witness for C3's workflow half: a successful provisioning run (one
under-quota project, fault-free provider) issues the instance-creation call
and indeed leaves the agent record in the store. -/
theorem C3_provision_instance_has_agent_witness :
    ∃ a ∈ (provision_vm envOK dbOneProj cloudEmpty inpGood).1.agents,
      a.vm_name = some inpGood.name ∧ a.agent_token = envOK.freshToken :=
  C3_provision_instance_has_agent envOK dbOneProj cloudEmpty inpGood
    ⟨"p1", "good-node", by decide⟩

/-- Counterexample to C3 as stated: the raw instance-creation endpoint
(`POST /infra/instances`) run against an empty system creates a cloud
instance while the agent-record store stays empty — an Instance exists with
no corresponding AgentRecord. -/
theorem C3_create_vm_no_agent_counterexample :
    (create_vm noFaults dbEmpty cloudEmpty inpVmW none).2.1.instances =
      [(GCP_PROJECT, "abc-node")] ∧
    (create_vm noFaults dbEmpty cloudEmpty inpVmW none).1.agents = [] := by
  exact ⟨rfl, rfl⟩

end Nave
